import Mathlib

/-!
Verification of the gesture classification and debouncing engine of
src/testing.py (hand-to-arrow mapper for Subway Surfers).

The Python source is shallowly embedded:
  * landmark coordinates are rationals (the classifier only adds, subtracts,
    multiplies, halves and compares them, so the rational embedding tracks
    the Python float computation exactly on finite inputs);
  * the transcendental primitive math.degrees(math.atan2 y x) is abstracted
    as a function parameter at2 : Q -> Q -> Q, since no claim inspects the
    numeric value of an angle produced by it;
  * the mutable loop state (last_sent, last_gesture) of main becomes an
    explicit StabState threaded through a per-frame step function;
  * the cooldown block that the source runs twice per frame (lines 211-221)
    is embedded twice, as stepFrame2, next to the single-check stepFrame;
  * Python exception behaviour on short landmark lists (IndexError swallowed
    by the blanket except in main) is embedded with Except;
  * a separate PyFloat type models IEEE NaN semantics (every comparison with
    NaN is false, arithmetic propagates NaN) for the malformed-input
    analysis, where rationals cannot express non-finite coordinates.
-/

namespace HandCtl

/-- Control actions sent as arrow keys by the source (the strings
left / right / up / down of testing.py). `none` in the source is modelled
as `Option Action`s `none`. -/
inductive Action where
  | left
  | right
  | up
  | down
deriving DecidableEq

/-- Raw gesture, the return value of get_hand_gesture: the string roll,
a numeric angle, or Python None (here: ambiguous). -/
inductive RawGesture where
  | roll
  | direction (angle : ℚ)
  | ambiguous
deriving DecidableEq

/-- Config constant DIRECTION_THRESHOLD = 35.0 (testing.py line 34). -/
def DIRECTION_THRESHOLD : ℚ := 35

/-- Config constant MIN_CONFIDENCE_FRAMES = 1 (testing.py line 35).
This constant is declared in the source but never read afterwards. -/
def MIN_CONFIDENCE_FRAMES : ℕ := 1

/-- Config constant COOLDOWN_SECONDS = 0.05 (testing.py line 37). -/
def COOLDOWN_SECONDS : ℚ := 1/20

/-- Config constant STABILITY_THRESHOLD = 15 (testing.py line 39). -/
def STABILITY_THRESHOLD : ℚ := 15

/-- A valid landmark set: 21 indexed 2-D points (x, y). -/
def Landmarks : Type := Fin 21 → ℚ × ℚ

/-- Python float modulo, x % m = x - m * floor (x / m), used by the source
as (angle + 360) % 360 (testing.py line 101). -/
def pymod (x m : ℚ) : ℚ := x - m * ⌊x / m⌋

/-- Squared distance from the wrist (landmark 0) to landmark i
(testing.py lines 52, 64-65). -/
def sqDistToWrist (lm : Landmarks) (i : Fin 21) : ℚ :=
  ((lm i).1 - (lm 0).1)^2 + ((lm i).2 - (lm 0).2)^2

/-- The (tip, pip) landmark index pairs of the four non-thumb fingers
(testing.py line 57). -/
def finger_pairs : List (Fin 21 × Fin 21) := [(8, 6), (12, 10), (16, 14), (20, 18)]

/-- The count fingers_extended accumulated by the loop of is_roll_gesture
(testing.py lines 54-68): a finger counts iff its squared tip distance from
the wrist strictly exceeds its squared pip distance. -/
def fingers_extended (lm : Landmarks) : ℕ :=
  finger_pairs.countP (fun p => decide (sqDistToWrist lm p.2 < sqDistToWrist lm p.1))

/-- is_roll_gesture (testing.py lines 46-71): a fist iff at most 2 of the 4
non-thumb fingers are extended. -/
def is_roll_gesture (lm : Landmarks) : Bool :=
  decide (fingers_extended lm ≤ 2)

/-- The direction vector (dx, dy) from the wrist to the midpoint of the
index tip (8) and middle tip (12) (testing.py lines 83-91). -/
def midVec (lm : Landmarks) : ℚ × ℚ :=
  (((lm 8).1 + (lm 12).1) / 2 - (lm 0).1,
   ((lm 8).2 + (lm 12).2) / 2 - (lm 0).2)

/-- distance_sq = dx*dx + dy*dy (testing.py line 94). -/
def midDistSq (lm : Landmarks) : ℚ :=
  (midVec lm).1 * (midVec lm).1 + (midVec lm).2 * (midVec lm).2

/-- get_hand_gesture (testing.py lines 73-101). The parameter at2 stands for
the transcendental primitive fun y x => math.degrees (math.atan2 y x); the
source applies it to (-dy, dx) and normalizes with (angle + 360) % 360. -/
def get_hand_gesture (at2 : ℚ → ℚ → ℚ) (lm : Landmarks) : RawGesture :=
  if is_roll_gesture lm then RawGesture.roll
  else if midDistSq lm < STABILITY_THRESHOLD * STABILITY_THRESHOLD then RawGesture.ambiguous
  else RawGesture.direction (pymod (at2 (-(midVec lm).2) (midVec lm).1 + 360) 360)

/-- Membership in the angular band centered on 0/360, first branch of
angle_to_direction (testing.py line 106). -/
abbrev inRightBand (θ a : ℚ) : Prop := a ≤ θ ∨ 360 - θ ≤ a

/-- Membership in the angular band centered on 90, second branch of
angle_to_direction (testing.py line 108). -/
abbrev inUpBand (θ a : ℚ) : Prop := 90 - θ ≤ a ∧ a ≤ 90 + θ

/-- Membership in the angular band centered on 180, third branch of
angle_to_direction (testing.py line 110). -/
abbrev inLeftBand (θ a : ℚ) : Prop := 180 - θ ≤ a ∧ a ≤ 180 + θ

/-- angle_to_direction (testing.py lines 103-113), with the half-width
threshold θ a parameter so that configuration values other than the shipped
constant can be discussed. -/
def angle_to_direction_param (θ a : ℚ) : Option Action :=
  if inRightBand θ a then some Action.right
  else if inUpBand θ a then some Action.up
  else if inLeftBand θ a then some Action.left
  else none

/-- angle_to_direction with the shipped DIRECTION_THRESHOLD. -/
def angle_to_direction (a : ℚ) : Option Action :=
  angle_to_direction_param DIRECTION_THRESHOLD a

/-- The mutable state of main that survives across frames:
last_sent (testing.py line 137) and last_gesture (line 139). -/
structure StabState where
  last_gesture : Option Action
  last_sent : Action → ℚ

/-- The stability block of main (testing.py lines 187-192). Input: the raw
candidate direction of the frame and the current last_gesture. Output: the
effective direction used for emission and the new last_gesture. -/
def hysteresis (dir : Option Action) (lg : Option Action) : Option Action × Option Action :=
  if dir ≠ lg then
    if dir.isSome then (dir, dir)
    else if lg.isSome then (lg, lg)
    else (dir, lg)
  else (dir, lg)

/-- One cooldown check-and-update block of main (testing.py lines 212-215
and, duplicated verbatim, lines 218-221): if a direction is present and its
per-action cooldown has elapsed, record it as the action to send and stamp
last_sent; otherwise leave the accumulator and the stamps unchanged. -/
def cooldownCheck (dir : Option Action) (now : ℚ) (action : Option Action)
    (sent : Action → ℚ) : Option Action × (Action → ℚ) :=
  match dir with
  | none => (action, sent)
  | some d =>
      if now - sent d > COOLDOWN_SECONDS then (some d, Function.update sent d now)
      else (action, sent)

/-- One frame of the stability-plus-cooldown pipeline with the cooldown
block run once (the single-check semantics the spec adopts). -/
def stepFrame (dir0 : Option Action) (now : ℚ) (s : StabState) :
    Option Action × StabState :=
  let h := hysteresis dir0 s.last_gesture
  let c := cooldownCheck h.1 now none s.last_sent
  (c.1, ⟨h.2, c.2⟩)

/-- One frame with the cooldown block run twice, as the source does
(testing.py lines 211-221); now1 and now2 are the two time.time() samples. -/
def stepFrame2 (dir0 : Option Action) (now1 now2 : ℚ) (s : StabState) :
    Option Action × StabState :=
  let h := hysteresis dir0 s.last_gesture
  let c1 := cooldownCheck h.1 now1 none s.last_sent
  let c2 := cooldownCheck h.1 now2 c1.1 c1.2
  (c2.1, ⟨h.2, c2.2⟩)

/-- stepFrame with the configuration value min_confidence_frames made
explicit. The source declares MIN_CONFIDENCE_FRAMES (testing.py line 35) but
never reads it in main, so the step does not depend on the argument. -/
def stepFrameN (_n : ℕ) (dir0 : Option Action) (now : ℚ) (s : StabState) :
    Option Action × StabState :=
  stepFrame dir0 now s

/-- Landmark list access of the source: every code path of get_hand_gesture
reads indices 0, 6, 8, 10, 12, 14, 16, 18 and 20, so a Python list raises
IndexError exactly when it has fewer than 21 entries; entries past index 20
are ignored. -/
def getLandmarks (lms : List (ℚ × ℚ)) : Except Unit Landmarks :=
  if h : 21 ≤ lms.length then
    Except.ok (fun i => lms.get ⟨i.1, lt_of_lt_of_le i.2 h⟩)
  else
    Except.error ()

/-- get_hand_gesture as invoked on a raw landmark list inside the try block
of main (testing.py line 178): an out-of-range access surfaces as an error,
which the blanket except of main swallows. -/
def classifyFrameE (at2 : ℚ → ℚ → ℚ) (lms : List (ℚ × ℚ)) : Except Unit RawGesture :=
  (getLandmarks lms).map (get_hand_gesture at2)

/-- One iteration of the processed-frame body of main (testing.py
lines 170-228) for a frame carrying either no hand or a raw landmark list:
classification, gesture-to-direction mapping (lines 180-185), stability
block and the doubled cooldown block. An exception inside get_hand_gesture
reaches the except before any state is touched, so an error frame leaves the
state unchanged and emits nothing, exactly like a no-hand frame. -/
def mainFrame (at2 : ℚ → ℚ → ℚ) (hand : Option (List (ℚ × ℚ))) (now1 now2 : ℚ)
    (s : StabState) : Option Action × StabState :=
  match hand with
  | none => (none, s)
  | some lms =>
    match classifyFrameE at2 lms with
    | Except.error _ => (none, s)
    | Except.ok g =>
      let dir0 : Option Action :=
        match g with
        | RawGesture.roll => some Action.down
        | RawGesture.direction a => angle_to_direction a
        | RawGesture.ambiguous => none
      stepFrame2 dir0 now1 now2 s

/-- Translation of all 21 landmarks by a common offset v. -/
def translateLm (v : ℚ × ℚ) (lm : Landmarks) : Landmarks :=
  fun i => ((lm i).1 + v.1, (lm i).2 + v.2)

/-- Python float value for the malformed-input analysis: either a finite
value (tracked exactly as a rational) or NaN. IEEE semantics of the
operations the classifier uses: arithmetic propagates NaN, and every
ordered comparison involving NaN is false. -/
inductive PyFloat where
  | nan
  | fin (q : ℚ)
deriving DecidableEq

/-- Python float addition: NaN propagates. -/
def PyFloat.add : PyFloat → PyFloat → PyFloat
  | PyFloat.fin a, PyFloat.fin b => PyFloat.fin (a + b)
  | _, _ => PyFloat.nan

/-- Python float subtraction: NaN propagates. -/
def PyFloat.sub : PyFloat → PyFloat → PyFloat
  | PyFloat.fin a, PyFloat.fin b => PyFloat.fin (a - b)
  | _, _ => PyFloat.nan

/-- Python float multiplication: NaN propagates. -/
def PyFloat.mul : PyFloat → PyFloat → PyFloat
  | PyFloat.fin a, PyFloat.fin b => PyFloat.fin (a * b)
  | _, _ => PyFloat.nan

/-- Python float negation: NaN propagates. -/
def PyFloat.neg : PyFloat → PyFloat
  | PyFloat.fin a => PyFloat.fin (-a)
  | PyFloat.nan => PyFloat.nan

/-- Python float halving (division by the literal 2): NaN propagates. -/
def PyFloat.half : PyFloat → PyFloat
  | PyFloat.fin a => PyFloat.fin (a / 2)
  | PyFloat.nan => PyFloat.nan

/-- Python float strict greater-than: false whenever either side is NaN. -/
def PyFloat.gt : PyFloat → PyFloat → Bool
  | PyFloat.fin a, PyFloat.fin b => decide (b < a)
  | _, _ => false

/-- Python float strict less-than: false whenever either side is NaN. -/
def PyFloat.lt : PyFloat → PyFloat → Bool
  | PyFloat.fin a, PyFloat.fin b => decide (a < b)
  | _, _ => false

/-- Python float modulo; NaN propagates (testing.py line 101). -/
def PyFloat.pymod : PyFloat → PyFloat → PyFloat
  | PyFloat.fin a, PyFloat.fin b => PyFloat.fin (HandCtl.pymod a b)
  | _, _ => PyFloat.nan

/-- Landmark set over Python floats, for inputs with non-finite entries. -/
def PyLandmarks : Type := Fin 21 → PyFloat × PyFloat

/-- Raw gesture over Python floats. -/
inductive PyGesture where
  | roll
  | direction (angle : PyFloat)
  | ambiguous
deriving DecidableEq

/-- The fingers_extended count of is_roll_gesture under Python float
semantics (testing.py lines 54-68): tip_dist_sq > pip_dist_sq with squared
distances from the wrist; a NaN coordinate makes the comparison false. -/
def fingers_extended_py (lm : PyLandmarks) : ℕ :=
  finger_pairs.countP (fun p =>
    PyFloat.gt
      ((PyFloat.sub (lm p.1).1 (lm 0).1).mul (PyFloat.sub (lm p.1).1 (lm 0).1)
        |>.add ((PyFloat.sub (lm p.1).2 (lm 0).2).mul (PyFloat.sub (lm p.1).2 (lm 0).2)))
      ((PyFloat.sub (lm p.2).1 (lm 0).1).mul (PyFloat.sub (lm p.2).1 (lm 0).1)
        |>.add ((PyFloat.sub (lm p.2).2 (lm 0).2).mul (PyFloat.sub (lm p.2).2 (lm 0).2))))

/-- is_roll_gesture under Python float semantics. -/
def is_roll_gesture_py (lm : PyLandmarks) : Bool :=
  decide (fingers_extended_py lm ≤ 2)

/-- get_hand_gesture under Python float semantics; at2 abstracts
fun y x => math.degrees (math.atan2 y x), which returns NaN on NaN input. -/
def get_hand_gesture_py (at2 : PyFloat → PyFloat → PyFloat) (lm : PyLandmarks) : PyGesture :=
  if is_roll_gesture_py lm then PyGesture.roll
  else
    let dx := PyFloat.sub (PyFloat.half (PyFloat.add (lm 8).1 (lm 12).1)) (lm 0).1
    let dy := PyFloat.sub (PyFloat.half (PyFloat.add (lm 8).2 (lm 12).2)) (lm 0).2
    if PyFloat.lt ((dx.mul dx).add (dy.mul dy))
        (PyFloat.fin (STABILITY_THRESHOLD * STABILITY_THRESHOLD)) then
      PyGesture.ambiguous
    else
      PyGesture.direction (PyFloat.pymod (PyFloat.add (at2 dy.neg dx) (PyFloat.fin 360)) (PyFloat.fin 360))

/-- Concrete fixture: the all-zero landmark set (a degenerate fist). -/
def lmZero : Landmarks := fun _ => (0, 0)

/-- Concrete fixture: index, middle and ring fingers extended while the
index/middle tip midpoint coincides with the wrist. -/
def lmFingers : Landmarks := fun i =>
  if i.val = 8 then (10, 0)
  else if i.val = 12 then (-10, 0)
  else if i.val = 16 then (0, 10)
  else (0, 0)

/-- Concrete fixture: a 22-entry landmark list (one entry too many). -/
def lms22 : List (ℚ × ℚ) := List.replicate 22 (0, 0)

/-- Concrete fixture: a 21-entry landmark set with every coordinate NaN. -/
def lmNaN : PyLandmarks := fun _ => (PyFloat.nan, PyFloat.nan)

/-- Concrete fixture: the fresh Stabilizer state at session start
(testing.py lines 137-139): last_gesture None, all stamps at 0. -/
def s0 : StabState := ⟨none, fun _ => 0⟩

/-- Concrete fixture: a Stabilizer state holding a stable left gesture. -/
def sLeft : StabState := ⟨some Action.left, fun _ => 0⟩

/-- State reached after k ambiguous-candidate frames at times 1, 2, ..., k
starting from a stable gesture b with all cooldown stamps at 0. -/
def ambIter (b : Action) : ℕ → StabState
  | 0 => ⟨some b, fun _ => 0⟩
  | Nat.succ k => (stepFrame none ((k : ℚ) + 1) (ambIter b k)).2

/-! Helper lemmas shared by the claim theorems. -/

lemma sqDistToWrist_translate (v : ℚ × ℚ) (lm : Landmarks) (i : Fin 21) :
    sqDistToWrist (translateLm v lm) i = sqDistToWrist lm i := by
  simp only [sqDistToWrist, translateLm]
  ring

lemma fingers_extended_translate (v : ℚ × ℚ) (lm : Landmarks) :
    fingers_extended (translateLm v lm) = fingers_extended lm := by
  unfold fingers_extended
  congr 1
  funext p
  rw [sqDistToWrist_translate, sqDistToWrist_translate]

lemma hysteresis_adopt (dir0 lg : Option Action) (h1 : dir0 ≠ lg) (h2 : dir0 ≠ none) :
    hysteresis dir0 lg = (dir0, dir0) := by
  cases dir0 with
  | none => exact absurd rfl h2
  | some d => simp [hysteresis, h1]

lemma hysteresis_sticky (lg : Option Action) (h : lg ≠ none) :
    hysteresis none lg = (lg, lg) := by
  cases lg with
  | none => exact absurd rfl h
  | some a => simp [hysteresis]

lemma stepFrame_last_gesture (dir0 : Option Action) (now : ℚ) (s : StabState) :
    (stepFrame dir0 now s).2.last_gesture = (hysteresis dir0 s.last_gesture).2 := rfl

lemma lmFingers_at0 : lmFingers 0 = (0, 0) := rfl

lemma lmFingers_at6 : lmFingers 6 = (0, 0) := rfl

lemma lmFingers_at8 : lmFingers 8 = (10, 0) := rfl

lemma lmFingers_at10 : lmFingers 10 = (0, 0) := rfl

lemma lmFingers_at12 : lmFingers 12 = (-10, 0) := rfl

lemma lmFingers_at14 : lmFingers 14 = (0, 0) := rfl

lemma lmFingers_at16 : lmFingers 16 = (0, 10) := rfl

lemma lmFingers_at18 : lmFingers 18 = (0, 0) := rfl

lemma lmFingers_at20 : lmFingers 20 = (0, 0) := rfl

/-! Claim theorems. -/

/-- C1: for every configured half-width threshold θ (a nonnegative value
below 45 degrees) the three angular bands of angle_to_direction centered on
0/360, 90 and 180 degrees are pairwise disjoint; an angle exactly equal to
0, 90 or 180 maps to right, up, left respectively; every angle outside all
three bands maps to none; and the mapping never produces down. The claim
also quantifies over valid 21-landmark sets, on which the angle-to-action
mapping does not depend. -/
theorem C1_angle_bands (θ : ℚ) (hθ0 : 0 ≤ θ) (hθ : θ < 45) :
    (∀ a : ℚ,
      ¬(inRightBand θ a ∧ inUpBand θ a) ∧
      ¬(inUpBand θ a ∧ inLeftBand θ a) ∧
      ¬(inRightBand θ a ∧ inLeftBand θ a)) ∧
    angle_to_direction_param θ 0 = some Action.right ∧
    angle_to_direction_param θ 90 = some Action.up ∧
    angle_to_direction_param θ 180 = some Action.left ∧
    (∀ a : ℚ, ¬inRightBand θ a → ¬inUpBand θ a → ¬inLeftBand θ a →
      angle_to_direction_param θ a = none) ∧
    (∀ a : ℚ, angle_to_direction_param θ a ≠ some Action.down) := by
  refine ⟨?_, ?_, ?_, ?_, ?_, ?_⟩
  · intro a
    refine ⟨fun h => ?_, fun h => ?_, fun h => ?_⟩
    · obtain ⟨hR, hU1, hU2⟩ := h
      rcases hR with h1 | h1 <;> linarith
    · obtain ⟨⟨hU1, hU2⟩, hL1, hL2⟩ := h
      linarith
    · obtain ⟨hR, hL1, hL2⟩ := h
      rcases hR with h1 | h1 <;> linarith
  · unfold angle_to_direction_param
    rw [if_pos (Or.inl hθ0)]
  · have hR : ¬ inRightBand θ 90 := by
      rintro (h1 | h1) <;> linarith
    have hU : inUpBand θ 90 := ⟨by linarith, by linarith⟩
    unfold angle_to_direction_param
    rw [if_neg hR, if_pos hU]
  · have hR : ¬ inRightBand θ 180 := by
      rintro (h1 | h1) <;> linarith
    have hU : ¬ inUpBand θ 180 := by
      rintro ⟨h1, h2⟩
      linarith
    have hL : inLeftBand θ 180 := ⟨by linarith, by linarith⟩
    unfold angle_to_direction_param
    rw [if_neg hR, if_neg hU, if_pos hL]
  · intro a hR hU hL
    unfold angle_to_direction_param
    rw [if_neg hR, if_neg hU, if_neg hL]
  · intro a
    unfold angle_to_direction_param
    split_ifs <;> simp

/-- Witness for C1 at the shipped threshold θ = 35. -/
theorem C1_angle_bands_witness :
    (0 : ℚ) ≤ 35 ∧ (35 : ℚ) < 45 ∧
    angle_to_direction_param 35 90 = some Action.up :=
  ⟨by norm_num, by norm_num, (C1_angle_bands 35 (by norm_num) (by norm_num)).2.2.1⟩

/-- C2: for every landmark set in which at most 2 of the 4 non-thumb
fingers are extended (tip squared distance from the wrist strictly above
pip squared distance), the classifier returns Roll, and the classification
is invariant under translating all 21 landmarks by a common offset. -/
theorem C2_roll_translation (at2 : ℚ → ℚ → ℚ) (lm : Landmarks) (v : ℚ × ℚ)
    (h : fingers_extended lm ≤ 2) :
    get_hand_gesture at2 lm = RawGesture.roll ∧
    fingers_extended (translateLm v lm) = fingers_extended lm ∧
    get_hand_gesture at2 (translateLm v lm) = RawGesture.roll := by
  have h1 : is_roll_gesture lm = true := by
    simp [is_roll_gesture, h]
  have h2 : is_roll_gesture (translateLm v lm) = true := by
    simp [is_roll_gesture, fingers_extended_translate, h]
  refine ⟨?_, fingers_extended_translate v lm, ?_⟩
  · simp [get_hand_gesture, h1]
  · simp [get_hand_gesture, h2]

/-- Witness for C2 on the all-zero landmark set translated by (1, 2). -/
theorem C2_roll_translation_witness :
    fingers_extended lmZero ≤ 2 ∧
    get_hand_gesture (fun _ _ => 0) (translateLm (1, 2) lmZero) = RawGesture.roll := by
  have h : fingers_extended lmZero ≤ 2 := by
    norm_num [fingers_extended, finger_pairs, sqDistToWrist, lmZero, List.countP, List.countP.go]
  exact ⟨h, (C2_roll_translation (fun _ _ => 0) lmZero (1, 2) h).2.2⟩

lemma stepFrame_left_from_sLeft :
    stepFrame (some Action.left) 1 sLeft =
      (some Action.left, ⟨some Action.left, Function.update (fun _ => 0) Action.left 1⟩) := by
  simp [stepFrame, hysteresis, cooldownCheck, sLeft, COOLDOWN_SECONDS]
  norm_num

lemma stepFrame_none_keeps_left :
    stepFrame none 2 (⟨some Action.left, Function.update (fun _ => 0) Action.left 1⟩ : StabState) =
      (some Action.left,
        ⟨some Action.left, Function.update (Function.update (fun _ => 0) Action.left 1) Action.left 2⟩) := by
  simp [stepFrame, hysteresis, cooldownCheck, COOLDOWN_SECONDS, Function.update]
  norm_num

lemma stepFrame_left_again :
    stepFrame (some Action.left) 3
      (⟨some Action.left, Function.update (Function.update (fun _ => 0) Action.left 1) Action.left 2⟩ : StabState) =
      (some Action.left,
        ⟨some Action.left,
         Function.update (Function.update (Function.update (fun _ => 0) Action.left 1) Action.left 2) Action.left 3⟩) := by
  simp [stepFrame, hysteresis, cooldownCheck, COOLDOWN_SECONDS, Function.update]
  norm_num

/-- C3: the hysteresis of the frame step adopts a differing non-none
candidate as the new last stable direction within the same evaluation; a
none candidate with a non-neutral held direction is substituted by the held
direction; and from a stable left state, a left frame, an ambiguous frame
and another left frame all report left with no intervening none. -/
theorem C3_hysteresis (dir0 : Option Action) (now : ℚ) (s : StabState) :
    (dir0 ≠ s.last_gesture → dir0 ≠ none →
      (stepFrame dir0 now s).2.last_gesture = dir0) ∧
    (dir0 = none → s.last_gesture ≠ none →
      (hysteresis dir0 s.last_gesture).1 = s.last_gesture) ∧
    ((stepFrame (some Action.left) 1 sLeft).1 = some Action.left ∧
     (stepFrame none 2 (stepFrame (some Action.left) 1 sLeft).2).1 = some Action.left ∧
     (stepFrame (some Action.left) 3
        (stepFrame none 2 (stepFrame (some Action.left) 1 sLeft).2).2).1 = some Action.left) := by
  refine ⟨fun h1 h2 => ?_, fun h1 h2 => ?_, ?_, ?_, ?_⟩
  · rw [stepFrame_last_gesture, hysteresis_adopt dir0 s.last_gesture h1 h2]
  · subst h1
    rw [hysteresis_sticky s.last_gesture h2]
  · rw [stepFrame_left_from_sLeft]
  · rw [stepFrame_left_from_sLeft, stepFrame_none_keeps_left]
  · rw [stepFrame_left_from_sLeft, stepFrame_none_keeps_left, stepFrame_left_again]

/-- Witness for C3: a fresh state adopts a new up candidate immediately. -/
theorem C3_hysteresis_witness :
    (stepFrame (some Action.up) 1 s0).2.last_gesture = some Action.up :=
  (C3_hysteresis (some Action.up) 1 s0).1 (by simp [s0]) (by simp)

/-- C4: with post-hysteresis candidate dir and timestamp now, an action d is
emitted iff dir is d and now minus the last emission stamp of d strictly
exceeds the cooldown; emission stamps the action with now; a none candidate
emits nothing and leaves every stamp unchanged; and a qualifying left frame
immediately followed by a qualifying right frame both emit. -/
theorem C4_cooldown (dir : Option Action) (now : ℚ) (sent : Action → ℚ) :
    (∀ d : Action, (cooldownCheck dir now none sent).1 = some d ↔
        (dir = some d ∧ now - sent d > COOLDOWN_SECONDS)) ∧
    (∀ d : Action, dir = some d → now - sent d > COOLDOWN_SECONDS →
        (cooldownCheck dir now none sent).2 d = now) ∧
    cooldownCheck none now none sent = (none, sent) ∧
    ((stepFrame (some Action.left) 1 s0).1 = some Action.left ∧
     (stepFrame (some Action.right) 1 (stepFrame (some Action.left) 1 s0).2).1 = some Action.right) := by
  refine ⟨fun d => ?_, fun d hd hgt => ?_, rfl, ?_, ?_⟩
  · cases dir with
    | none => simp [cooldownCheck]
    | some e =>
      by_cases hc : now - sent e > COOLDOWN_SECONDS
      · simp only [cooldownCheck, if_pos hc]
        constructor
        · intro h
          have he : e = d := Option.some.inj h
          subst he
          exact ⟨rfl, hc⟩
        · rintro ⟨h1, _⟩
          exact h1
      · simp only [cooldownCheck, if_neg hc]
        constructor
        · intro h
          exact absurd h (by simp)
        · rintro ⟨h1, h2⟩
          have he : e = d := Option.some.inj h1
          subst he
          exact absurd h2 hc
  · subst hd
    simp only [cooldownCheck, if_pos hgt]
    simp [Function.update]
  · have h1 : stepFrame (some Action.left) 1 s0 =
        (some Action.left, ⟨some Action.left, Function.update (fun _ => 0) Action.left 1⟩) := by
      simp [stepFrame, hysteresis, cooldownCheck, s0, COOLDOWN_SECONDS]
      norm_num
    rw [h1]
  · have h1 : stepFrame (some Action.left) 1 s0 =
        (some Action.left, ⟨some Action.left, Function.update (fun _ => 0) Action.left 1⟩) := by
      simp [stepFrame, hysteresis, cooldownCheck, s0, COOLDOWN_SECONDS]
      norm_num
    rw [h1]
    have h2 : stepFrame (some Action.right) 1
        (⟨some Action.left, Function.update (fun _ => 0) Action.left 1⟩ : StabState) =
        (some Action.right,
          ⟨some Action.right,
           Function.update (Function.update (fun _ => 0) Action.left 1) Action.right 1⟩) := by
      simp [stepFrame, hysteresis, cooldownCheck, COOLDOWN_SECONDS, Function.update]
      norm_num
    rw [h2]

/-- Witness for C4: an up emission at time 1 from zero stamps records 1. -/
theorem C4_cooldown_witness :
    (cooldownCheck (some Action.up) 1 none (fun _ => 0)).2 Action.up = 1 :=
  (C4_cooldown (some Action.up) 1 (fun _ => 0)).2.1 Action.up rfl
    (by norm_num [COOLDOWN_SECONDS])

/-- C9: running the duplicated cooldown check-and-update block twice with a
single timestamp emits the same action and produces the same state as
running it once: once the first block fires, the elapsed time against the
freshly stamped action is zero, below the positive cooldown, so the second
block never fires; if the first block does not fire, the second evaluates
the same false condition on unchanged state. -/
theorem C9_duplicate_cooldown (dir0 : Option Action) (now : ℚ) (s : StabState) :
    stepFrame2 dir0 now now s = stepFrame dir0 now s := by
  simp only [stepFrame2, stepFrame]
  cases hd : (hysteresis dir0 s.last_gesture).1 with
  | none => simp [cooldownCheck]
  | some d =>
    by_cases hc : now - s.last_sent d > COOLDOWN_SECONDS
    · simp only [cooldownCheck, if_pos hc]
      have h0 : ¬ (now - Function.update s.last_sent d now d > COOLDOWN_SECONDS) := by
        rw [Function.update_same]
        norm_num [COOLDOWN_SECONDS]
      rw [if_neg h0]
    · simp only [cooldownCheck, if_neg hc]

lemma hysteresis_keeps_some (dir0 lg : Option Action) (h : lg ≠ none) :
    (hysteresis dir0 lg).2 ≠ none := by
  unfold hysteresis
  split_ifs with h1 h2 h3
  · simpa using Option.ne_none_iff_isSome.mpr h2
  · simpa using h
  · simpa using h
  · simpa using h

lemma ambIter_closed (b : Action) (k : ℕ) :
    ambIter b k = ⟨some b, Function.update (fun _ => 0) b (k : ℚ)⟩ := by
  induction k with
  | zero =>
    simp only [ambIter, Nat.cast_zero]
    congr 1
    funext c
    by_cases h : c = b <;> simp [Function.update, h]
  | succ k ih =>
    have hys : hysteresis none (some b) = (some b, some b) :=
      hysteresis_sticky (some b) (by simp)
    have hupd : Function.update (fun _ => (0 : ℚ)) b (k : ℚ) b = (k : ℚ) := by
      simp
    have hc : (k : ℚ) + 1 - Function.update (fun _ => (0 : ℚ)) b (k : ℚ) b > COOLDOWN_SECONDS := by
      rw [hupd]
      norm_num [COOLDOWN_SECONDS]
    show (stepFrame none ((k : ℚ) + 1) (ambIter b k)).2 = _
    rw [ih]
    simp only [stepFrame, hys, cooldownCheck, if_pos hc]
    rw [Function.update_idem]
    congr 1
    push_cast
    ring

lemma ambIter_emits (b : Action) (k : ℕ) :
    (stepFrame none ((k : ℚ) + 1) (ambIter b k)).1 = some b := by
  have hys : hysteresis none (some b) = (some b, some b) :=
    hysteresis_sticky (some b) (by simp)
  have hupd : Function.update (fun _ => (0 : ℚ)) b (k : ℚ) b = (k : ℚ) := by
    simp
  have hc : (k : ℚ) + 1 - Function.update (fun _ => (0 : ℚ)) b (k : ℚ) b > COOLDOWN_SECONDS := by
    rw [hupd]
    norm_num [COOLDOWN_SECONDS]
  rw [ambIter_closed]
  simp only [stepFrame, hys, cooldownCheck, if_pos hc]

/-- C10: once the held last stable direction is non-none, no frame
evaluation resets it to none; an ambiguous frame substitutes the held
action and, once its cooldown has elapsed, re-emits it; consequently an
unbounded run of ambiguous frames at times 1, 2, ..., from a stable
gesture with zeroed stamps, emits the held action on every frame. -/
theorem C10_sticky (dir0 : Option Action) (now : ℚ) (s : StabState) (a : Action) :
    (s.last_gesture ≠ none → (stepFrame dir0 now s).2.last_gesture ≠ none) ∧
    (s.last_gesture = some a →
      (hysteresis none s.last_gesture).1 = some a ∧
      (stepFrame none now s).2.last_gesture = some a ∧
      (now - s.last_sent a > COOLDOWN_SECONDS → (stepFrame none now s).1 = some a)) ∧
    (∀ (b : Action) (k : ℕ), (stepFrame none ((k : ℚ) + 1) (ambIter b k)).1 = some b) := by
  refine ⟨fun h => ?_, fun h => ⟨?_, ?_, fun hcool => ?_⟩, ambIter_emits⟩
  · rw [stepFrame_last_gesture]
    exact hysteresis_keeps_some dir0 s.last_gesture h
  · rw [h, hysteresis_sticky (some a) (by simp)]
  · rw [stepFrame_last_gesture, h, hysteresis_sticky (some a) (by simp)]
  · have hys : hysteresis none s.last_gesture = (some a, some a) := by
      rw [h]
      exact hysteresis_sticky (some a) (by simp)
    simp only [stepFrame, hys, cooldownCheck, if_pos hcool]

/-- Witness for C10: an ambiguous frame from a stable left state keeps
and re-emits left. -/
theorem C10_sticky_witness :
    (stepFrame none 1 sLeft).2.last_gesture = some Action.left ∧
    (stepFrame none 1 sLeft).1 = some Action.left := by
  have h := (C10_sticky none 1 sLeft Action.left).2.1 rfl
  exact ⟨h.2.1, h.2.2 (by norm_num [sLeft, COOLDOWN_SECONDS])⟩

/-- C5 counterexample: the all-zero landmark set has a wrist-to-midpoint
vector of squared magnitude 0, below the stability threshold squared, yet
the classifier returns Roll, not Ambiguous: the fist check of
get_hand_gesture runs before the stability check. -/
theorem C5_roll_overrides_counterexample :
    midDistSq lmZero < STABILITY_THRESHOLD * STABILITY_THRESHOLD ∧
    get_hand_gesture (fun _ _ => 0) lmZero = RawGesture.roll ∧
    RawGesture.roll ≠ RawGesture.ambiguous := by
  refine ⟨?_, ?_, by simp⟩
  · norm_num [midDistSq, midVec, lmZero, STABILITY_THRESHOLD]
  · norm_num [get_hand_gesture, is_roll_gesture, fingers_extended, finger_pairs,
      sqDistToWrist, lmZero, List.countP, List.countP.go]

/-- C5 amended: if the landmark set is not a fist (more than 2 of the 4
non-thumb fingers extended) and the wrist-to-midpoint vector has squared
magnitude strictly below the stability threshold squared, the classifier
returns Ambiguous. -/
theorem C5_ambiguous_when_close (at2 : ℚ → ℚ → ℚ) (lm : Landmarks)
    (hroll : 2 < fingers_extended lm)
    (hd : midDistSq lm < STABILITY_THRESHOLD * STABILITY_THRESHOLD) :
    get_hand_gesture at2 lm = RawGesture.ambiguous := by
  have h1 : is_roll_gesture lm = false := by
    simp only [is_roll_gesture, decide_eq_false_iff_not]
    omega
  simp [get_hand_gesture, h1, hd]

/-- Witness for C5 amended: three fingers extended with the index/middle
tip midpoint exactly at the wrist. -/
theorem C5_ambiguous_when_close_witness :
    get_hand_gesture (fun _ _ => 0) lmFingers = RawGesture.ambiguous := by
  have hroll : 2 < fingers_extended lmFingers := by
    norm_num [fingers_extended, finger_pairs, sqDistToWrist, List.countP, List.countP.go,
      lmFingers_at0, lmFingers_at6, lmFingers_at8, lmFingers_at10, lmFingers_at12,
      lmFingers_at14, lmFingers_at16, lmFingers_at18, lmFingers_at20]
  have hd : midDistSq lmFingers < STABILITY_THRESHOLD * STABILITY_THRESHOLD := by
    norm_num [midDistSq, midVec, STABILITY_THRESHOLD,
      lmFingers_at0, lmFingers_at8, lmFingers_at12]
  exact C5_ambiguous_when_close (fun _ _ => 0) lmFingers hroll hd

/-- C6 counterexample: an out-of-range threshold configuration θ = 50 ≥ 45
is not rejected: angle_to_direction still evaluates and maps the angle 45,
which lies in both the right band and the up band under θ = 50, to right by
branch order. No construction-time validation exists in the source. -/
theorem C6_no_validation_counterexample :
    angle_to_direction_param 50 45 = some Action.right ∧
    inRightBand 50 45 ∧ inUpBand 50 45 := by
  refine ⟨?_, by norm_num [inRightBand], by norm_num [inUpBand]⟩
  norm_num [angle_to_direction_param]

/-- C6 amended: the source performs no configuration validation and has no
ConfigurationError; the thresholds are module constants used as-is, and
angle_to_direction is total for every θ (at θ = 45 the right and up bands
already overlap at 45 degrees, which silently maps to right). The shipped
constants themselves satisfy θ = 35 < 45 and cooldown = 0.05 ≥ 0. -/
theorem C6_constants_unvalidated :
    DIRECTION_THRESHOLD = 35 ∧ DIRECTION_THRESHOLD < 45 ∧
    COOLDOWN_SECONDS = 1/20 ∧ 0 ≤ COOLDOWN_SECONDS ∧
    angle_to_direction_param 45 45 = some Action.right ∧
    inRightBand 45 45 ∧ inUpBand 45 45 := by
  refine ⟨rfl, by norm_num [DIRECTION_THRESHOLD], rfl, by norm_num [COOLDOWN_SECONDS],
    ?_, by norm_num [inRightBand], by norm_num [inUpBand]⟩
  norm_num [angle_to_direction_param]

/-- C7 counterexample: a landmark list with 22 entries (not 21) is accepted
and classified without any failure: the source only reads indices 0-20, so
extra entries are silently ignored. -/
theorem C7_extra_entries_counterexample :
    lms22.length = 22 ∧
    classifyFrameE (fun _ _ => 0) lms22 = Except.ok RawGesture.roll := by
  constructor
  · simp [lms22]
  · norm_num [classifyFrameE, getLandmarks, lms22, Except.map, get_hand_gesture,
      is_roll_gesture, fingers_extended, finger_pairs, sqDistToWrist,
      List.countP, List.countP.go, List.get]

/-- C7 amended: a landmark list with fewer than 21 entries makes the
classifier fail (Python IndexError), and the caller's blanket exception
handler makes such a frame behave exactly like a no-hand frame: nothing is
emitted and the state is unchanged; a list with 21 or more entries is
classified normally. Non-finite coordinates are not detected: with every
coordinate NaN all tip-beyond-pip comparisons are false, so the classifier
returns Roll instead of failing. -/
theorem C7_malformed_input (at2 : ℚ → ℚ → ℚ) (at2py : PyFloat → PyFloat → PyFloat)
    (lms : List (ℚ × ℚ)) (now1 now2 : ℚ) (s : StabState) :
    (lms.length < 21 → classifyFrameE at2 lms = Except.error ()) ∧
    (lms.length < 21 → mainFrame at2 (some lms) now1 now2 s = (none, s)) ∧
    mainFrame at2 none now1 now2 s = (none, s) ∧
    (21 ≤ lms.length → ∃ g, classifyFrameE at2 lms = Except.ok g) ∧
    get_hand_gesture_py at2py lmNaN = PyGesture.roll := by
  refine ⟨fun h => ?_, fun h => ?_, rfl, fun h => ?_, ?_⟩
  · have h2 : ¬ 21 ≤ lms.length := by omega
    simp [classifyFrameE, getLandmarks, h2, Except.map]
  · have h2 : ¬ 21 ≤ lms.length := by omega
    simp [mainFrame, classifyFrameE, getLandmarks, h2, Except.map]
  · unfold classifyFrameE getLandmarks
    rw [dif_pos h]
    exact ⟨_, rfl⟩
  · have hnan : is_roll_gesture_py lmNaN = true := by decide
    simp [get_hand_gesture_py, hnan]

/-- Witness for C7 amended: a one-entry landmark list errors and its frame
leaves the state unchanged, like a no-hand frame. -/
theorem C7_malformed_input_witness :
    classifyFrameE (fun _ _ => 0) [((0 : ℚ), (0 : ℚ))] = Except.error () ∧
    mainFrame (fun _ _ => 0) (some [((0 : ℚ), (0 : ℚ))]) 1 1 s0 = (none, s0) := by
  have h := C7_malformed_input (fun _ _ => 0) (fun _ _ => PyFloat.nan) [((0 : ℚ), (0 : ℚ))] 1 1 s0
  exact ⟨h.1 (by norm_num), h.2.1 (by norm_num)⟩

/-- C8 counterexample: with min_confidence_frames set to 2, a single left
raw candidate frame from a fresh state is adopted immediately as the new
last stable direction, not after 2 consecutive frames: the source never
reads MIN_CONFIDENCE_FRAMES. -/
theorem C8_unused_counterexample :
    (stepFrameN 2 (some Action.left) 1 s0).2.last_gesture = some Action.left := by
  rw [show (stepFrameN 2 (some Action.left) 1 s0).2.last_gesture =
      (hysteresis (some Action.left) s0.last_gesture).2 from rfl]
  rw [hysteresis_adopt (some Action.left) s0.last_gesture (by simp [s0]) (by simp)]

/-- C8 amended: MIN_CONFIDENCE_FRAMES is declared with value 1 but never
read, so the frame step is identical for every value of
min_confidence_frames and adoption of a differing non-none candidate is
always immediate — the behaviour always equals the default-1 semantics. -/
theorem C8_no_confidence_debounce (n m : ℕ) (dir0 : Option Action) (now : ℚ) (s : StabState) :
    stepFrameN n dir0 now s = stepFrameN m dir0 now s ∧
    MIN_CONFIDENCE_FRAMES = 1 ∧
    (dir0 ≠ s.last_gesture → dir0 ≠ none →
      (stepFrameN n dir0 now s).2.last_gesture = dir0) := by
  refine ⟨rfl, rfl, fun h1 h2 => ?_⟩
  rw [show (stepFrameN n dir0 now s).2.last_gesture =
      (hysteresis dir0 s.last_gesture).2 from rfl]
  rw [hysteresis_adopt dir0 s.last_gesture h1 h2]

/-- Witness for C8 amended: the step with min_confidence_frames 5 equals
the step with 1, and still adopts a new right candidate immediately. -/
theorem C8_no_confidence_debounce_witness :
    (stepFrameN 5 (some Action.right) 1 s0).2.last_gesture = some Action.right :=
  (C8_no_confidence_debounce 5 1 (some Action.right) 1 s0).2.2 (by simp [s0]) (by simp)

end HandCtl
